import Mathlib

/-! The nvme-cli logger: a shallow embedding of `logger.c` and `logger.h`.

Text is a list of characters.  A C string argument is the list of its
characters before the terminating NUL.  The capture buffer of the session is
an `open_memstream` stream: a byte buffer plus a file position.

The libc facilities the logger calls (`open_memstream`, `vfprintf`, `fflush`,
`rewind`, `fclose`, `strtok_r`, `syslog`, `strerror`, `backtrace`,
`backtrace_symbols`) are not part of the repository; they are modelled after
their POSIX / glibc descriptions, the environment-dependent ones as fields of
`Libc`.
-/

namespace NvmeCli

abbrev Text := List Char

/-! ## Constants of `logger.h` and `<syslog.h>` -/

def NVMECLI_LOGLEVEL_ALL : Int := 0
def NVMECLI_LOGLEVEL_TRACE : Int := 10
def NVMECLI_LOGLEVEL_DEBUG : Int := 20
def NVMECLI_LOGLEVEL_INFO : Int := 50
def NVMECLI_LOGLEVEL_NOTICE : Int := 60
def NVMECLI_LOGLEVEL_WARN : Int := 70
def NVMECLI_LOGLEVEL_ERROR : Int := 80
def NVMECLI_LOGLEVEL_FATAL : Int := 90
def NVMECLI_LOGLEVEL_NONE : Int := 100

/-- Priority `LOG_CRIT` of `<syslog.h>`. -/
def LOG_CRIT : Nat := 2
/-- Priority `LOG_ERR` of `<syslog.h>`. -/
def LOG_ERR : Nat := 3
/-- Priority `LOG_WARNING` of `<syslog.h>`. -/
def LOG_WARNING : Nat := 4
/-- Priority `LOG_NOTICE` of `<syslog.h>`. -/
def LOG_NOTICE : Nat := 5
/-- Priority `LOG_INFO` of `<syslog.h>`. -/
def LOG_INFO : Nat := 6
/-- Priority `LOG_DEBUG` of `<syslog.h>`. -/
def LOG_DEBUG : Nat := 7
/-- Facility `LOG_USER` of `<syslog.h>`, that is `1 << 3`. -/
def LOG_USER : Nat := 8

/-! ## Data model -/

/-- The `struct nvmecli_location` of `logger.h`. -/
structure nvmecli_location where
  fname : Text
  line : Int
  func : Text
  level : Int
deriving DecidableEq, Repr

/-- An `open_memstream` stream: the bytes of its buffer and the file position.
The bytes at and after `pos` are what earlier, longer writes left behind. -/
structure Memstream where
  buf : Text
  pos : Nat
deriving DecidableEq, Repr

/-- The `struct nvmecli_logger` of `logger.h`.  `message` is the pointer that
`open_memstream` reports the buffer through (`none` is `NULL`): it holds the
bytes the pointer gave access to at the last flush.  `memstream` is the
`FILE *` (`none` is `NULL`). -/
structure nvmecli_logger where
  message : Option Text
  msglen : Nat
  memstream : Option Memstream
  logging_threshold : Int
deriving DecidableEq, Repr

/-- One call of `syslog(priority, "%s %s", pfx, line)`. -/
structure SyslogRecord where
  priority : Nat
  pfx : Text
  line : Text
deriving DecidableEq, Repr

/-- The text of a record, `"%s %s"` rendered. -/
def SyslogRecord.text (r : SyslogRecord) : Text := r.pfx ++ ' ' :: r.line

/-- What the process has written outside the session: the two console
streams and the records handed to `syslog`, oldest first. -/
structure Sys where
  stderr : Text
  stdout : Text
  syslog : List SyslogRecord
  /-- The identity registered by `openlog`, `none` after `closelog`. -/
  ident : Option Text
deriving DecidableEq, Repr

/-- The outcome of the stack walk in `append_stacktrace`. -/
inductive StackWalk where
  /-- The call `backtrace()` returned a negative count. -/
  | backtrace_failed
  /-- The call `backtrace_symbols()` returned `NULL`. -/
  | symbols_failed
  /-- The array `traces` of `st_size` entries, each possibly `NULL`. -/
  | frames (traces : List (Option Text))
deriving DecidableEq, Repr

/-- The environment-dependent libc results. -/
structure Libc where
  /-- Result of `strerror(os_error)`. -/
  strerror : Int → Text
  /-- Result of `backtrace` followed by `backtrace_symbols`. -/
  stack_walk : StackWalk
  /-- Result of `open_memstream`: `none` on success, `some errno` on failure. -/
  open_memstream_errno : Option Int

/-- A variadic argument of `nvmecli_log`. -/
inductive Arg where
  | s (v : Text)
  | d (v : Int)
  | c (v : Char)
deriving DecidableEq, Repr

/-! ## libc: formatting -/

/-- The conversion `%d`. -/
def fmt_d (v : Int) : Text :=
  if v < 0 then '-' :: Nat.toDigits 10 v.natAbs else Nat.toDigits 10 v.natAbs

/-- The formatting loop of `vfprintf`; the flag says that the character
before was a `%` that starts a conversion. -/
def vformat_go : Bool → Text → List Arg → Text
  | false, [], _ => []
  | true, [], _ => ['%']
  | false, ch :: rest, args =>
    if ch = '%' then vformat_go true rest args else ch :: vformat_go false rest args
  | true, ch :: rest, args =>
    if ch = '%' then '%' :: vformat_go false rest args
    else if ch = 's' then
      match args with
      | Arg.s v :: args1 => v ++ vformat_go false rest args1
      | _ => '%' :: ch :: vformat_go false rest args
    else if ch = 'd' then
      match args with
      | Arg.d v :: args1 => fmt_d v ++ vformat_go false rest args1
      | _ => '%' :: ch :: vformat_go false rest args
    else if ch = 'c' then
      match args with
      | Arg.c v :: args1 => v :: vformat_go false rest args1
      | _ => '%' :: ch :: vformat_go false rest args
    else '%' :: ch :: vformat_go false rest args

/-- What `vfprintf(fp, format, ap)` writes, for the conversions `%s`, `%d`,
`%c` and `%%`.  Every other character is copied, and so is a conversion that
is not one of these or that finds no argument of its kind. -/
def vformat (format : Text) (args : List Arg) : Text := vformat_go false format args

/-! ## libc: streams -/

/-- A `FILE *` that can be written to. -/
class CFile (σ : Type) where
  /-- Writing a text at the file position. -/
  write : σ → Text → σ

/-- Writing `s` at the file position (a gap before it is filled with NUL). -/
def Memstream.write (fp : Memstream) (s : Text) : Memstream :=
  { buf := fp.buf.take fp.pos ++ List.replicate (fp.pos - fp.buf.length) '\x00' ++ s
             ++ fp.buf.drop (fp.pos + s.length),
    pos := fp.pos + s.length }

instance : CFile Memstream := ⟨Memstream.write⟩

/-- A console stream is the text written to it so far. -/
instance : CFile Text := ⟨fun out s => out ++ s⟩

/-- The calls `fprintf(fp, format, ...)` and `vfprintf(fp, format, ap)`. -/
def fprintf {σ : Type} [CFile σ] (fp : σ) (format : Text) (args : List Arg) : σ :=
  CFile.write fp (vformat format args)

/-- The call `fputc(ch, fp)`. -/
def fputc {σ : Type} [CFile σ] (ch : Char) (fp : σ) : σ := CFile.write fp [ch]

/-- The bytes between the start of the buffer and the file position. -/
def Memstream.contents (fp : Memstream) : Text := fp.buf.take fp.pos

/-- The call `rewind(fp)`: the file position goes back to the start. -/
def rewind (fp : Memstream) : Memstream := { fp with pos := 0 }

/-- The call `fflush(fp)` on the session stream: the buffer pointer and the
size registered with `open_memstream` are brought up to date; the size is the
smaller of the buffer length and the file position. -/
def fflush (logger : nvmecli_logger) (fp : Memstream) : nvmecli_logger :=
  { logger with message := some fp.contents, msglen := min fp.buf.length fp.pos }

/-! ## libc: `strtok_r` -/

/-- The C string at a pointer: the bytes before the first NUL. -/
def cstr (bytes : Text) : Text := bytes.takeWhile (fun ch => decide (ch ≠ '\x00'))

/-- The call `strtok_r(str, "\n", &saveptr)` on the C string that remains to
be scanned: `none` is `NULL`, otherwise the token and the new `saveptr`. -/
def strtok_r (str : Text) : Option (Text × Text) :=
  match str.dropWhile (fun ch => decide (ch = '\n')) with
  | [] => none
  | ch :: rest =>
    some ((ch :: rest).takeWhile (fun c => decide (c ≠ '\n')),
          ((ch :: rest).dropWhile (fun c => decide (c ≠ '\n'))).drop 1)

/-! ## `logger.c` -/

/-- The frames loop of `append_stacktrace`, at index `i` with the entries
`traces[i], traces[i+1], ...` still to visit. -/
def append_stacktrace_loop : Nat → List (Option Text) → Memstream → Memstream
  | _, [], fp => fp
  | i, some trace :: ts, fp =>
    append_stacktrace_loop (i + 1) ts (fprintf fp "(%d) %s\n".toList [Arg.d i, Arg.s trace])
  | i, none :: ts, fp => append_stacktrace_loop (i + 1) ts fp

/-- The function `append_stacktrace` of `logger.c`. -/
def append_stacktrace (env : Libc) (fp : Memstream) (frames_to_chop : Nat) : Memstream :=
  let fp1 := fprintf fp "\n=== nvme-cli stack trace ===\n".toList []
  match env.stack_walk with
  | StackWalk.backtrace_failed => fprintf fp1 "backtrace() failed. no stack trace".toList []
  | StackWalk.symbols_failed => fprintf fp1 "backtrace_symbols() failed. no stack trace".toList []
  | StackWalk.frames traces =>
    append_stacktrace_loop frames_to_chop (traces.drop frames_to_chop) fp1

/-- The function `append_location_info` of `logger.c`. -/
def append_location_info (fp : Memstream) (loc : nvmecli_location) : Memstream :=
  fprintf fp " in %s:%s():L%d ".toList [Arg.s loc.fname, Arg.s loc.func, Arg.d loc.line]

/-- The function `append_perror` of `logger.c`. -/
def append_perror {σ : Type} [CFile σ] (env : Libc) (fp : σ) (os_error : Int) : σ :=
  fprintf fp ": %s".toList [Arg.s (env.strerror os_error)]

/-- The function `sysloglevel` of `logger.c`. -/
def sysloglevel (loc : nvmecli_location) : Nat :=
  if loc.level = NVMECLI_LOGLEVEL_FATAL then LOG_CRIT
  else if loc.level = NVMECLI_LOGLEVEL_ERROR then LOG_ERR
  else if loc.level = NVMECLI_LOGLEVEL_WARN then LOG_WARNING
  else if loc.level = NVMECLI_LOGLEVEL_NOTICE then LOG_NOTICE
  else if loc.level = NVMECLI_LOGLEVEL_INFO then LOG_INFO
  else LOG_DEBUG

/-- The `while (line)` loop of `send_syslog`: `line` is the result of the last
`strtok_r`, and the records are those the remaining iterations hand to
`syslog`.  The first argument bounds the number of iterations. -/
def send_syslog_loop : Nat → Option (Text × Text) → Text → Nat → List SyslogRecord
  | 0, _, _, _ => []
  | _ + 1, none, _, _ => []
  | fuel + 1, some (line, saveptr), pfx, level =>
    { priority := level ||| LOG_USER, pfx := pfx, line := line }
      :: send_syslog_loop fuel (strtok_r saveptr) "   ".toList level

/-- The function `send_syslog` of `logger.c`: the records it hands to `syslog`,
in order.  `message` holds the bytes at the pointer; scanning stops at the
first NUL.  Every iteration consumes a character, so the length of the string
plus one bounds the iterations. -/
def send_syslog (message : Text) (pfx : Text) (level : Nat) : List SyslogRecord :=
  send_syslog_loop ((cstr message).length + 1) (strtok_r (cstr message)) pfx level

/-- The `switch (loc->level)` of `nvmecli_log`: the session stream and the
console streams after it. -/
def nvmecli_log_switch (env : Libc) (fp : Memstream) (sys : Sys) (loc : nvmecli_location)
    (os_error : Int) (format : Text) (args : List Arg) : Memstream × Sys :=
  if loc.level = NVMECLI_LOGLEVEL_FATAL ∨ loc.level = NVMECLI_LOGLEVEL_ERROR
      ∨ loc.level = NVMECLI_LOGLEVEL_WARN then
    let fp1 := if loc.level = NVMECLI_LOGLEVEL_FATAL then append_stacktrace env fp 2 else fp
    let err1 := fprintf sys.stderr format args
    let err2 := if os_error ≠ 0 then append_perror env err1 os_error else err1
    let fp2 := if os_error ≠ 0 then append_perror env fp1 os_error else fp1
    let err3 := fputc '\n' err2
    (append_location_info fp2 loc, { sys with stderr := err3 })
  else if loc.level = NVMECLI_LOGLEVEL_NOTICE then
    (fp, { sys with stdout := fputc '\n' (fprintf sys.stdout format args) })
  else (fp, sys)

/-- The function `nvmecli_log` of `logger.c`.  The result is `none` when the
call has no defined behaviour (the stream of the session is `NULL`),
otherwise the returned value with the session and the outside afterwards. -/
def nvmecli_log (env : Libc) (logger : nvmecli_logger) (sys : Sys) (loc : nvmecli_location)
    (pfx : Text) (os_error : Int) (format : Text) (args : List Arg) :
    Option (Int × nvmecli_logger × Sys) :=
  match logger.memstream with
  | none => none
  | some fp0 =>
    let fp1 := fprintf fp0 format args
    let sw := nvmecli_log_switch env fp1 sys loc os_error format args
    let logger1 := fflush logger sw.1
    let sys2 : Sys :=
      match logger1.message with
      | some message =>
        { sw.2 with syslog := sw.2.syslog
            ++ send_syslog (message.take logger1.msglen) pfx (sysloglevel loc) }
      | none => sw.2
    some (0, { logger1 with memstream := some (rewind sw.1) }, sys2)

/-! ## `logger.h` -/

/-- The expansion site of a logging statement: `__FILE__`, `__LINE__` and
`__func__`. -/
structure Site where
  file : Text
  line : Int
  func : Text
deriving DecidableEq, Repr

/-- The statement `_nvmecli_msg(indicator, level, fmt, ...)` of `logger.h`,
where the variadic part is the format and its arguments (and `fmt` is what
`nvmecli_log` receives as `os_error`). -/
def _nvmecli_msg (env : Libc) (g_logger : nvmecli_logger) (sys : Sys) (site : Site)
    (indicator : Text) (level : Int) (fmt : Int) (format : Text) (args : List Arg) :
    Option (nvmecli_logger × Sys) :=
  if level ≥ g_logger.logging_threshold then
    match nvmecli_log env g_logger sys
        { fname := site.file, line := site.line, func := site.func, level := level }
        indicator fmt format args with
    | some r => some r.2
    | none => none
  else some (g_logger, sys)

def nvmecli_trace (env : Libc) (g_logger : nvmecli_logger) (sys : Sys) (site : Site)
    (format : Text) (args : List Arg) : Option (nvmecli_logger × Sys) :=
  _nvmecli_msg env g_logger sys site "T:".toList NVMECLI_LOGLEVEL_TRACE 0 format args

def nvmecli_debug (env : Libc) (g_logger : nvmecli_logger) (sys : Sys) (site : Site)
    (format : Text) (args : List Arg) : Option (nvmecli_logger × Sys) :=
  _nvmecli_msg env g_logger sys site "D:".toList NVMECLI_LOGLEVEL_DEBUG 0 format args

def nvmecli_info (env : Libc) (g_logger : nvmecli_logger) (sys : Sys) (site : Site)
    (format : Text) (args : List Arg) : Option (nvmecli_logger × Sys) :=
  _nvmecli_msg env g_logger sys site "I:".toList NVMECLI_LOGLEVEL_INFO 0 format args

def nvmecli_notice (env : Libc) (g_logger : nvmecli_logger) (sys : Sys) (site : Site)
    (format : Text) (args : List Arg) : Option (nvmecli_logger × Sys) :=
  _nvmecli_msg env g_logger sys site "N:".toList NVMECLI_LOGLEVEL_NOTICE 0 format args

def nvmecli_warn (env : Libc) (g_logger : nvmecli_logger) (sys : Sys) (site : Site)
    (format : Text) (args : List Arg) : Option (nvmecli_logger × Sys) :=
  _nvmecli_msg env g_logger sys site "W:".toList NVMECLI_LOGLEVEL_WARN 0 format args

def nvmecli_error (env : Libc) (g_logger : nvmecli_logger) (sys : Sys) (site : Site)
    (format : Text) (args : List Arg) : Option (nvmecli_logger × Sys) :=
  _nvmecli_msg env g_logger sys site "E:".toList NVMECLI_LOGLEVEL_ERROR 0 format args

/-- The statement `nvmecli_perror`, with the value of `errno` at the call. -/
def nvmecli_perror (env : Libc) (g_logger : nvmecli_logger) (sys : Sys) (site : Site)
    (errno : Int) (format : Text) (args : List Arg) : Option (nvmecli_logger × Sys) :=
  _nvmecli_msg env g_logger sys site "E:".toList NVMECLI_LOGLEVEL_ERROR errno format args

def nvmecli_fatal (env : Libc) (g_logger : nvmecli_logger) (sys : Sys) (site : Site)
    (format : Text) (args : List Arg) : Option (nvmecli_logger × Sys) :=
  _nvmecli_msg env g_logger sys site "F:".toList NVMECLI_LOGLEVEL_FATAL 0 format args

/-! ## Session lifecycle and `main` of `logger.c` -/

/-- The initial value of the global `g_logger`. -/
def g_logger_init : nvmecli_logger :=
  { message := none, msglen := 0, memstream := none, logging_threshold := 0 }

/-- The function `nvmecli_open_logger` of `logger.c`. -/
def nvmecli_open_logger (env : Libc) (g_logger : nvmecli_logger) (sys : Sys) :
    Option (Int × nvmecli_logger × Sys) :=
  match env.open_memstream_errno with
  | some errno => some (errno, { g_logger with memstream := none }, sys)
  | none =>
    let g1 : nvmecli_logger :=
      { g_logger with memstream := some { buf := [], pos := 0 },
                      logging_threshold := NVMECLI_LOGLEVEL_TRACE }
    let sys1 : Sys := { sys with ident := some "nvme-cli".toList }
    match nvmecli_info env g1 sys1
        { file := "logger.c".toList, line := 105, func := "nvmecli_open_logger".toList }
        "=== Starting NVMe CLI Logger ===".toList [] with
    | some r => some (0, r)
    | none => none

/-- The function `nvmecli_close_logger` of `logger.c`.  `fclose` flushes the
stream before it releases it. -/
def nvmecli_close_logger (env : Libc) (g_logger : nvmecli_logger) (sys : Sys) :
    Option (Int × nvmecli_logger × Sys) :=
  match nvmecli_info env g_logger sys
      { file := "logger.c".toList, line := 112, func := "nvmecli_close_logger".toList }
      "=== Closing NVMe CLI Logger ===".toList [] with
  | none => none
  | some (g1, sys1) =>
    let g2 : nvmecli_logger :=
      match g1.memstream with
      | some fp => { fflush g1 fp with memstream := none }
      | none => g1
    let g3 : nvmecli_logger :=
      match g2.message with
      | some _ => { g2 with message := none }
      | none => g2
    some (0, { g3 with logging_threshold := 0, msglen := 0 }, { sys1 with ident := none })

/-- The string `multiline_message` of `logger.c`. -/
def multiline_message : Text :=
  ("hello world\n" ++ "One two three four\n" ++ "\n" ++ "\n"
    ++ "int n = nvmecli_open_logger();\n" ++ "London does not wait for me").toList

/-- The function `send_fatal` of `logger.c`. -/
def send_fatal (env : Libc) (g_logger : nvmecli_logger) (sys : Sys) :
    Option (nvmecli_logger × Sys) :=
  nvmecli_fatal env g_logger sys
    { file := "logger.c".toList, line := 198, func := "send_fatal".toList }
    "Fatal Message".toList []

/-- The call site at a line of `main`. -/
def main_site (line : Int) : Site :=
  { file := "logger.c".toList, line := line, func := "main".toList }

/-- The function `main` of `logger.c`, from the initial `g_logger`: the exit
status with the session and the outside at exit. -/
def main (env : Libc) (sys : Sys) : Option (Int × nvmecli_logger × Sys) :=
  match nvmecli_open_logger env g_logger_init sys with
  | none => none
  | some (n, g0, sys0) =>
    if n ≠ 0 then
      some (1, g0, { sys0 with
        stdout := fprintf sys0.stdout "open_memstream: %s\n".toList [Arg.s (env.strerror n)] })
    else
      (nvmecli_trace env g0 sys0 (main_site 209)
        "Trace Message and very long message".toList []).bind fun s1 =>
      (nvmecli_debug env s1.1 s1.2 (main_site 210) "Debug Message".toList []).bind fun s2 =>
      (nvmecli_debug env s2.1 s2.2 (main_site 211) multiline_message []).bind fun s3 =>
      (nvmecli_info env s3.1 s3.2 (main_site 212) "Info Message".toList []).bind fun s4 =>
      (nvmecli_notice env s4.1 s4.2 (main_site 213) "Notice Message".toList []).bind fun s5 =>
      (nvmecli_warn env s5.1 s5.2 (main_site 214) "Warn Message".toList []).bind fun s6 =>
      (nvmecli_error env s6.1 s6.2 (main_site 215) "Error Message".toList []).bind fun s7 =>
      (nvmecli_perror env s7.1 s7.2 (main_site 217) 114 "Perror Message".toList []).bind fun s8 =>
      (send_fatal env s8.1 s8.2).bind fun s9 =>
      nvmecli_close_logger env s9.1 s9.2

/-! ## Reference definitions

What the statements compare the code with: the texts and records as the
specification words them.  The names `spec_...` are not names of the source. -/

/-- All maximal newline-free segments of a text, empty ones included, in
order: the text cut at every newline. -/
def split_lines : Text → List Text
  | [] => [[]]
  | ch :: rest =>
    if ch = '\n' then [] :: split_lines rest
    else match split_lines rest with
      | [] => [[ch]]
      | l :: ls => (ch :: l) :: ls

/-- The non-empty maximal newline-free segments of a text, in order. -/
def segments (t : Text) : List Text := (split_lines t).filter (fun l => decide (l ≠ []))

/-- The records for a list of lines: the first tagged `pfx`, the others with
three blanks. -/
def spec_records (level : Nat) : Text → List Text → List SyslogRecord
  | _, [] => []
  | pfx, l :: ls =>
    { priority := level ||| LOG_USER, pfx := pfx, line := l } :: spec_records level "   ".toList ls

/-- The frame lines for the entries `traces[i], traces[i+1], ...`: one line
`(index) description` for every entry that is not `NULL`. -/
def spec_frames_text : Nat → List (Option Text) → Text
  | _, [] => []
  | i, some trace :: ts =>
    ('(' :: fmt_d i ++ ") ".toList ++ trace ++ ['\n']) ++ spec_frames_text (i + 1) ts
  | i, none :: ts => spec_frames_text (i + 1) ts

/-- What follows the header line in the stack-trace section: the placeholder
of the failed stack walk, or the frame lines from index `frames_to_chop` on. -/
def spec_stack_body (env : Libc) (frames_to_chop : Nat) : Text :=
  match env.stack_walk with
  | StackWalk.backtrace_failed => "backtrace() failed. no stack trace".toList
  | StackWalk.symbols_failed => "backtrace_symbols() failed. no stack trace".toList
  | StackWalk.frames traces => spec_frames_text frames_to_chop (traces.drop frames_to_chop)

/-- The stack-trace section: a newline, the header line, and what follows it. -/
def spec_stack_section (env : Libc) (frames_to_chop : Nat) : Text :=
  "\n=== nvme-cli stack trace ===\n".toList ++ spec_stack_body env frames_to_chop

/-- The location metadata ` in <file>:<func>():L<line> `. -/
def spec_location_info (loc : nvmecli_location) : Text :=
  " in ".toList ++ loc.fname ++ ':' :: loc.func ++ "():L".toList ++ fmt_d loc.line ++ [' ']

/-- The text `: <OS description>` for a non-zero `os_error`, nothing for zero. -/
def spec_os_description (env : Libc) (os_error : Int) : Text :=
  if os_error ≠ 0 then ": ".toList ++ env.strerror os_error else []

/-- What follows the rendered message in the capture buffer. -/
def spec_dispatch_tail (env : Libc) (loc : nvmecli_location) (os_error : Int) : Text :=
  if loc.level = NVMECLI_LOGLEVEL_FATAL then
    spec_stack_section env 2 ++ spec_os_description env os_error ++ spec_location_info loc
  else if loc.level = NVMECLI_LOGLEVEL_ERROR ∨ loc.level = NVMECLI_LOGLEVEL_WARN then
    spec_os_description env os_error ++ spec_location_info loc
  else []

/-- The text of one call in the capture buffer: the rendered message and what
the level adds to it. -/
def spec_dispatch_text (env : Libc) (loc : nvmecli_location) (os_error : Int)
    (format : Text) (args : List Arg) : Text :=
  vformat format args ++ spec_dispatch_tail env loc os_error

/-- What one call writes to the error stream. -/
def spec_console_err (env : Libc) (loc : nvmecli_location) (os_error : Int)
    (format : Text) (args : List Arg) : Text :=
  if loc.level = NVMECLI_LOGLEVEL_FATAL ∨ loc.level = NVMECLI_LOGLEVEL_ERROR
      ∨ loc.level = NVMECLI_LOGLEVEL_WARN then
    vformat format args ++ spec_os_description env os_error ++ ['\n']
  else []

/-- What one call writes to the standard output stream. -/
def spec_console_out (loc : nvmecli_location) (format : Text) (args : List Arg) : Text :=
  if loc.level = NVMECLI_LOGLEVEL_NOTICE then vformat format args ++ ['\n'] else []

/-- An environment: a stack walk of four frames, and the OS description of
error 114. -/
def example_env : Libc :=
  { strerror := fun e =>
      if e = 114 then "Operation already in progress".toList else "Unknown error".toList,
    stack_walk := StackWalk.frames
      [some "logger(append_stacktrace+0x2e)".toList, some "logger(nvmecli_log+0xd5)".toList,
       some "logger(send_fatal+0x4c)".toList, some "logger(main+0x1b0)".toList],
    open_memstream_errno := none }

/-- The outside of a process that has written nothing yet. -/
def example_sys : Sys :=
  { stderr := [], stdout := [], syslog := [], ident := some "nvme-cli".toList }

/-- An open session with an empty, rewound stream and threshold TRACE. -/
def example_logger : nvmecli_logger :=
  { message := none, msglen := 0, memstream := some { buf := [], pos := 0 },
    logging_threshold := NVMECLI_LOGLEVEL_TRACE }

/-- An open session with threshold INFO whose rewound stream still holds the
bytes of an earlier message. -/
def stale_logger : nvmecli_logger :=
  { message := some "old message".toList, msglen := 11,
    memstream := some { buf := "old message".toList, pos := 0 },
    logging_threshold := NVMECLI_LOGLEVEL_INFO }

/-- A call site in `main`. -/
def example_site : Site :=
  { file := "logger.c".toList, line := 214, func := "main".toList }

/-! # Theorems -/

/-! ## The line splitter -/

theorem split_lines_unfold (s : Text) :
    split_lines s = s.takeWhile (fun c => decide (c ≠ '\n'))
      :: (match s.dropWhile (fun c => decide (c ≠ '\n')) with
          | [] => []
          | _ :: r => split_lines r) := by
  induction s with
  | nil => rfl
  | cons ch rest ih =>
    by_cases h : ch = '\n'
    · subst h
      simp [split_lines]
    · rw [split_lines, if_neg h, ih]
      simp [h]

theorem segments_cons_newline (s : Text) : segments ('\n' :: s) = segments s := by
  simp [segments, split_lines]

theorem segments_dropWhile (s : Text) :
    segments (s.dropWhile (fun ch => decide (ch = '\n'))) = segments s := by
  induction s with
  | nil => rfl
  | cons ch rest ih =>
    by_cases h : ch = '\n'
    · subst h
      rw [segments_cons_newline, ← ih]
      simp
    · simp [h]

theorem segments_nil : segments [] = [] := by
  simp [segments, split_lines]

theorem strtok_r_none {s : Text} (h : strtok_r s = none) : segments s = [] := by
  unfold strtok_r at h
  split at h
  · rename_i heq
    rw [← segments_dropWhile, heq, segments_nil]
  · simp at h

theorem strtok_r_some {s line saveptr : Text} (h : strtok_r s = some (line, saveptr)) :
    segments s = line :: segments saveptr ∧ saveptr.length < s.length ∧ line ≠ []
      ∧ '\n' ∉ line := by
  unfold strtok_r at h
  split at h
  · simp at h
  · rename_i ch rest heq
    have hch : ch ≠ '\n' := by
      have := List.head_dropWhile_not (fun ch => decide (ch = '\n')) s
      simp [heq] at this
      exact this
    simp only [Option.some.injEq, Prod.mk.injEq] at h
    obtain ⟨h1, h2⟩ := h
    have hlen : (ch :: rest).length ≤ s.length := by
      rw [← heq]
      exact (List.dropWhile_sublist _).length_le
    refine ⟨?_, ?_, ?_, ?_⟩
    · rw [← segments_dropWhile s, heq, segments, split_lines_unfold, ← h1, ← h2]
      simp only [List.filter_cons]
      have : (List.takeWhile (fun c => decide (c ≠ '\n')) (ch :: rest)) ≠ [] := by
        simp [hch]
      simp only [this, ne_eq, not_false_eq_true, decide_True, if_true]
      congr 1
      cases hd : List.dropWhile (fun c => decide (c ≠ '\n')) (ch :: rest) with
      | nil => simp [segments, split_lines]
      | cons d r => simp [segments]
    · rw [← h2]
      have : ((ch :: rest).dropWhile (fun c => decide (c ≠ '\n'))).length ≤ rest.length := by
        simp only [List.dropWhile_cons, hch, ne_eq, not_false_eq_true, decide_True, if_true]
        exact (List.dropWhile_sublist _).length_le
      simp only [List.length_drop, List.length_cons] at *
      omega
    · rw [← h1]; simp [hch]
    · rw [← h1]
      intro hmem
      have := List.mem_takeWhile_imp hmem
      simp at this

theorem send_syslog_loop_eq (fuel : Nat) (s pfx : Text) (level : Nat) (h : s.length < fuel) :
    send_syslog_loop fuel (strtok_r s) pfx level = spec_records level pfx (segments s) := by
  induction fuel generalizing s pfx with
  | zero => omega
  | succ n ih =>
    cases hs : strtok_r s with
    | none => simp [send_syslog_loop, strtok_r_none hs, spec_records]
    | some tok =>
      obtain ⟨line, saveptr⟩ := tok
      obtain ⟨h1, h2, _, _⟩ := strtok_r_some hs
      rw [send_syslog_loop, h1, spec_records, ih saveptr _ (by omega)]

theorem send_syslog_eq (message pfx : Text) (level : Nat) :
    send_syslog message pfx level = spec_records level pfx (segments (cstr message)) :=
  send_syslog_loop_eq _ _ _ _ (Nat.lt_succ_self _)

/-! ## The memory stream -/

theorem Memstream.write_pos_le (fp : Memstream) (s : Text) :
    (fp.write s).pos ≤ (fp.write s).buf.length := by
  simp only [Memstream.write, List.length_append, List.length_take, List.length_replicate,
    List.length_drop]
  omega

theorem Memstream.write_nil (fp : Memstream) (h : fp.pos ≤ fp.buf.length) :
    fp.write [] = fp := by
  cases fp with
  | mk buf pos =>
    simp only [Memstream.write, List.length_nil, Nat.add_zero, List.append_nil]
    simp only at h
    rw [Nat.sub_eq_zero_of_le h]
    simp

theorem Memstream.write_write (fp : Memstream) (a b : Text) :
    (fp.write a).write b = fp.write (a ++ b) := by
  cases fp with
  | mk buf pos =>
    have hlen : (buf.take pos ++ List.replicate (pos - buf.length) '\x00' ++ a).length
        = pos + a.length := by
      simp only [List.length_append, List.length_take, List.length_replicate]
      omega
    have hd : List.drop (pos + a.length + b.length)
        (buf.take pos ++ List.replicate (pos - buf.length) '\x00' ++ a
          ++ buf.drop (pos + a.length)) = buf.drop (pos + (a ++ b).length) := by
      rw [← hlen, List.drop_append, List.drop_drop, hlen, List.length_append]
      congr 1
      omega
    have hz : pos + a.length - (buf.take pos ++ List.replicate (pos - buf.length) '\x00' ++ a
          ++ buf.drop (pos + a.length)).length = 0 := by
      simp only [List.length_append, List.length_take, List.length_replicate, List.length_drop]
      omega
    rw [Memstream.write, Memstream.write, Memstream.write]
    simp only [Memstream.mk.injEq]
    refine ⟨?_, by rw [List.length_append]; omega⟩
    rw [List.take_left' hlen, hd, hz]
    simp

theorem Memstream.write_contents (fp : Memstream) (s : Text) (h : fp.pos = 0) :
    (fp.write s).contents = s ∧ min (fp.write s).buf.length (fp.write s).pos = s.length := by
  cases fp with
  | mk buf pos =>
    simp only at h
    subst h
    simp [Memstream.write, Memstream.contents]

/-! ## The texts `logger.c` writes -/

theorem vformat_location (a b : Text) (n : Int) :
    vformat " in %s:%s():L%d ".toList [Arg.s a, Arg.s b, Arg.d n]
      = " in ".toList ++ a ++ ':' :: b ++ "():L".toList ++ fmt_d n ++ [' '] := by
  simp [vformat, vformat_go]

theorem vformat_perror (a : Text) : vformat ": %s".toList [Arg.s a] = ": ".toList ++ a := by
  simp [vformat, vformat_go]

theorem vformat_frame (i : Nat) (a : Text) :
    vformat "(%d) %s\n".toList [Arg.d i, Arg.s a] = '(' :: fmt_d i ++ ") ".toList ++ a ++ ['\n'] := by
  simp [vformat, vformat_go]

theorem append_stacktrace_loop_eq (i : Nat) (ts : List (Option Text)) (fp : Memstream)
    (h : fp.pos ≤ fp.buf.length) :
    append_stacktrace_loop i ts fp = fp.write (spec_frames_text i ts) := by
  induction ts generalizing i fp with
  | nil => simp [append_stacktrace_loop, spec_frames_text, Memstream.write_nil fp h]
  | cons t ts ih =>
    cases t with
    | none => simpa [append_stacktrace_loop, spec_frames_text] using ih (i + 1) fp h
    | some trace =>
      rw [append_stacktrace_loop, spec_frames_text, fprintf, vformat_frame]
      show append_stacktrace_loop (i + 1) ts (fp.write _) = _
      rw [ih (i + 1) _ (Memstream.write_pos_le _ _), Memstream.write_write]

theorem append_stacktrace_eq (env : Libc) (fp : Memstream) (n : Nat) :
    append_stacktrace env fp n = fp.write (spec_stack_section env n) := by
  unfold append_stacktrace spec_stack_section spec_stack_body
  cases env.stack_walk with
  | backtrace_failed => simp [fprintf, CFile.write, vformat, vformat_go, Memstream.write_write]
  | symbols_failed => simp [fprintf, CFile.write, vformat, vformat_go, Memstream.write_write]
  | frames traces =>
    simp only [fprintf, CFile.write]
    rw [append_stacktrace_loop_eq _ _ _ (Memstream.write_pos_le _ _), Memstream.write_write]
    simp [vformat, vformat_go]

theorem append_location_info_eq (fp : Memstream) (loc : nvmecli_location) :
    append_location_info fp loc = fp.write (spec_location_info loc) := by
  simp only [append_location_info, fprintf, CFile.write, vformat_location, spec_location_info]

theorem nvmecli_log_switch_eq (env : Libc) (fp : Memstream) (sys : Sys) (loc : nvmecli_location)
    (os_error : Int) (format : Text) (args : List Arg) (h : fp.pos ≤ fp.buf.length) :
    nvmecli_log_switch env fp sys loc os_error format args
      = (fp.write (spec_dispatch_tail env loc os_error),
         { sys with stderr := sys.stderr ++ spec_console_err env loc os_error format args,
                    stdout := sys.stdout ++ spec_console_out loc format args }) := by
  unfold nvmecli_log_switch spec_dispatch_tail spec_console_err spec_console_out spec_os_description
  by_cases hF : loc.level = NVMECLI_LOGLEVEL_FATAL
  · by_cases ho : os_error = 0
    · simp [hF, ho, NVMECLI_LOGLEVEL_NOTICE, NVMECLI_LOGLEVEL_FATAL, append_stacktrace_eq,
        append_location_info_eq, Memstream.write_write, fprintf, fputc, CFile.write]
    · simp only [append_perror, fprintf, vformat_perror]
      simp [hF, ho, NVMECLI_LOGLEVEL_NOTICE, NVMECLI_LOGLEVEL_FATAL, append_stacktrace_eq,
        append_location_info_eq, Memstream.write_write, fprintf, fputc, CFile.write]
  · by_cases hE : loc.level = NVMECLI_LOGLEVEL_ERROR ∨ loc.level = NVMECLI_LOGLEVEL_WARN
    · have hN : loc.level ≠ NVMECLI_LOGLEVEL_NOTICE := by
        rcases hE with hE | hE <;> rw [hE] <;> decide
      by_cases ho : os_error = 0
      · simp [hF, hE, hN, ho, append_location_info_eq, fprintf, fputc, CFile.write]
      · simp only [append_perror, fprintf, vformat_perror]
        simp [hF, hE, hN, ho, append_location_info_eq, Memstream.write_write, fprintf, fputc,
          CFile.write]
    · have hE1 : ¬ (loc.level = NVMECLI_LOGLEVEL_FATAL ∨ loc.level = NVMECLI_LOGLEVEL_ERROR
          ∨ loc.level = NVMECLI_LOGLEVEL_WARN) := by
        rintro (h1 | h1)
        · exact hF h1
        · exact hE h1
      by_cases hN : loc.level = NVMECLI_LOGLEVEL_NOTICE
      · simp [hN, NVMECLI_LOGLEVEL_NOTICE, NVMECLI_LOGLEVEL_FATAL, NVMECLI_LOGLEVEL_ERROR,
          NVMECLI_LOGLEVEL_WARN, Memstream.write_nil fp h, fprintf, fputc, CFile.write]
      · simp [hF, hE, hE1, hN, Memstream.write_nil fp h]

/-- The whole of `nvmecli_log` on a session whose stream is open. -/
theorem nvmecli_log_eq (env : Libc) (logger : nvmecli_logger) (sys : Sys)
    (loc : nvmecli_location) (pfx : Text) (os_error : Int) (format : Text) (args : List Arg)
    (fp : Memstream) (h : logger.memstream = some fp) :
    nvmecli_log env logger sys loc pfx os_error format args
      = some (0,
          { message := some (fp.write (spec_dispatch_text env loc os_error format args)).contents,
            msglen := min (fp.write (spec_dispatch_text env loc os_error format args)).buf.length
                          (fp.write (spec_dispatch_text env loc os_error format args)).pos,
            memstream := some (rewind (fp.write (spec_dispatch_text env loc os_error format args))),
            logging_threshold := logger.logging_threshold },
          { stderr := sys.stderr ++ spec_console_err env loc os_error format args,
            stdout := sys.stdout ++ spec_console_out loc format args,
            syslog := sys.syslog ++ send_syslog
              ((fp.write (spec_dispatch_text env loc os_error format args)).contents.take
                (min (fp.write (spec_dispatch_text env loc os_error format args)).buf.length
                     (fp.write (spec_dispatch_text env loc os_error format args)).pos))
              pfx (sysloglevel loc),
            ident := sys.ident }) := by
  unfold nvmecli_log
  rw [h]
  simp only [fprintf, CFile.write]
  rw [nvmecli_log_switch_eq _ _ _ _ _ _ _ (Memstream.write_pos_le _ _), Memstream.write_write]
  simp [fflush, spec_dispatch_text]

/-- The whole of `nvmecli_log` on a session whose stream is open and rewound. -/
theorem nvmecli_log_rewound (env : Libc) (logger : nvmecli_logger) (sys : Sys)
    (loc : nvmecli_location) (pfx : Text) (os_error : Int) (format : Text) (args : List Arg)
    (fp : Memstream) (h : logger.memstream = some fp) (hp : fp.pos = 0) :
    nvmecli_log env logger sys loc pfx os_error format args
      = some (0,
          { message := some (spec_dispatch_text env loc os_error format args),
            msglen := (spec_dispatch_text env loc os_error format args).length,
            memstream := some (rewind (fp.write (spec_dispatch_text env loc os_error format args))),
            logging_threshold := logger.logging_threshold },
          { stderr := sys.stderr ++ spec_console_err env loc os_error format args,
            stdout := sys.stdout ++ spec_console_out loc format args,
            syslog := sys.syslog ++ send_syslog (spec_dispatch_text env loc os_error format args)
              pfx (sysloglevel loc),
            ident := sys.ident }) := by
  rw [nvmecli_log_eq env logger sys loc pfx os_error format args fp h]
  obtain ⟨h1, h2⟩ := Memstream.write_contents fp (spec_dispatch_text env loc os_error format args) hp
  rw [h1, h2, List.take_length]

/-! ## Texts without newline and NUL -/

theorem digitChar_plain (n : Nat) : Nat.digitChar n ≠ '\n' ∧ Nat.digitChar n ≠ '\x00' := by
  by_cases h : n < 16
  · interval_cases n <;> decide
  · have hs : Nat.digitChar n = '*' := by
      unfold Nat.digitChar
      repeat (rw [if_neg (by omega)])
    rw [hs]
    decide

theorem toDigitsCore_plain (fuel n : Nat) (ds : Text)
    (h : ∀ c ∈ ds, c ≠ '\n' ∧ c ≠ '\x00') :
    ∀ c ∈ Nat.toDigitsCore 10 fuel n ds, c ≠ '\n' ∧ c ≠ '\x00' := by
  induction fuel generalizing n ds with
  | zero => simpa [Nat.toDigitsCore] using h
  | succ k ih =>
    have hd : ∀ c ∈ Nat.digitChar (n % 10) :: ds, c ≠ '\n' ∧ c ≠ '\x00' := by
      intro c hc
      rcases List.mem_cons.mp hc with hc | hc
      · rw [hc]; exact digitChar_plain _
      · exact h c hc
    rw [Nat.toDigitsCore]
    split_ifs
    · exact hd
    · exact ih _ _ hd

theorem fmt_d_plain (v : Int) : ∀ c ∈ fmt_d v, c ≠ '\n' ∧ c ≠ '\x00' := by
  have hn : ∀ c ∈ Nat.toDigits 10 v.natAbs, c ≠ '\n' ∧ c ≠ '\x00' :=
    toDigitsCore_plain _ _ [] (by simp)
  unfold fmt_d
  split_ifs
  · intro c hc
    rcases List.mem_cons.mp hc with hc | hc
    · rw [hc]; decide
    · exact hn c hc
  · exact hn

theorem cstr_append_of_plain (a b : Text) (h : ∀ c ∈ a, c ≠ '\x00') :
    cstr (a ++ b) = a ++ cstr b := by
  unfold cstr
  rw [List.takeWhile_append_of_pos]
  intro c hc
  simpa using h c hc

theorem cstr_of_plain (a : Text) (h : ∀ c ∈ a, c ≠ '\x00') : cstr a = a := by
  have := cstr_append_of_plain a [] h
  simpa [cstr] using this

theorem split_lines_ne_nil (s : Text) : split_lines s ≠ [] := by
  rw [split_lines_unfold]
  simp

theorem split_lines_of_no_newline (a : Text) (h : ∀ c ∈ a, c ≠ '\n') : split_lines a = [a] := by
  rw [split_lines_unfold]
  have h1 : a.takeWhile (fun c => decide (c ≠ '\n')) = a := by
    rw [List.takeWhile_eq_self_iff]
    intro c hc
    simpa using h c hc
  have h2 : a.dropWhile (fun c => decide (c ≠ '\n')) = [] := by
    rw [List.dropWhile_eq_nil_iff]
    intro c hc
    simpa using h c hc
  rw [h1, h2]

theorem split_lines_length (s : Text) : (split_lines s).length = s.count '\n' + 1 := by
  induction s with
  | nil => rfl
  | cons ch rest ih =>
    by_cases h : ch = '\n'
    · subst h
      simp [split_lines, ih]
    · rw [split_lines, if_neg h]
      cases hs : split_lines rest with
      | nil => exact absurd hs (split_lines_ne_nil rest)
      | cons l ls =>
        rw [hs] at ih
        have hne : (ch == '\n') = false := by simpa using h
        simp only [List.length_cons] at ih ⊢
        rw [List.count_cons, hne]
        simpa using ih

theorem segments_count_le (t : Text) : (segments t).length ≤ t.count '\n' + 1 := by
  rw [← split_lines_length]
  exact List.length_filter_le _ _

/-! ## Records -/

theorem spec_records_line (level : Nat) (pfx : Text) (ls : List Text) :
    (spec_records level pfx ls).map SyslogRecord.line = ls := by
  induction ls generalizing pfx with
  | nil => rfl
  | cons l ls ih => simp [spec_records, ih]

theorem spec_records_length (level : Nat) (pfx : Text) (ls : List Text) :
    (spec_records level pfx ls).length = ls.length := by
  rw [← List.length_map, spec_records_line]

theorem spec_records_priority (level : Nat) (pfx : Text) (ls : List Text) :
    ∀ r ∈ spec_records level pfx ls, r.priority = level ||| LOG_USER := by
  induction ls generalizing pfx with
  | nil => simp [spec_records]
  | cons l ls ih =>
    intro r hr
    rw [spec_records] at hr
    rcases List.mem_cons.mp hr with hr | hr
    · rw [hr]
    · exact ih _ r hr

theorem spec_records_blank_pfx (level : Nat) (ls : List Text) :
    ∀ r ∈ spec_records level "   ".toList ls, r.pfx = "   ".toList := by
  induction ls with
  | nil => simp [spec_records]
  | cons l ls ih =>
    intro r hr
    rw [spec_records] at hr
    rcases List.mem_cons.mp hr with hr | hr
    · rw [hr]
    · exact ih r hr

theorem spec_records_tags (level : Nat) (pfx : Text) (ls : List Text) (r : SyslogRecord)
    (rs : List SyslogRecord) (h : spec_records level pfx ls = r :: rs) :
    r.pfx = pfx ∧ ∀ r2 ∈ rs, r2.pfx = "   ".toList := by
  cases ls with
  | nil => simp [spec_records] at h
  | cons l ls =>
    rw [spec_records] at h
    simp only [List.cons.injEq] at h
    obtain ⟨h1, h2⟩ := h
    refine ⟨by rw [← h1], ?_⟩
    rw [← h2]
    exact spec_records_blank_pfx level ls

theorem split_lines_no_newline (t : Text) : ∀ l ∈ split_lines t, '\n' ∉ l := by
  induction t with
  | nil => simp [split_lines]
  | cons ch rest ih =>
    by_cases h : ch = '\n'
    · subst h
      simpa [split_lines] using ih
    · rw [split_lines, if_neg h]
      cases hs : split_lines rest with
      | nil => simpa using fun h2 => h h2.symm
      | cons l ls =>
        rw [hs] at ih
        intro x hx
        rcases List.mem_cons.mp hx with hx | hx
        · rw [hx]
          have := ih l (List.mem_cons_self _ _)
          simp only [List.mem_cons, not_or]
          exact ⟨fun h2 => h h2.symm, this⟩
        · exact ih x (List.mem_cons_of_mem _ hx)

theorem split_lines_join (t : Text) : List.intercalate ['\n'] (split_lines t) = t := by
  induction t with
  | nil => rfl
  | cons ch rest ih =>
    by_cases h : ch = '\n'
    · subst h
      rw [split_lines, if_pos rfl]
      cases hs : split_lines rest with
      | nil => exact absurd hs (split_lines_ne_nil rest)
      | cons l ls =>
        rw [hs] at ih
        simp only [List.intercalate, List.intersperse, List.flatten] at ih ⊢
        simp [ih]
    · rw [split_lines, if_neg h]
      cases hs : split_lines rest with
      | nil => exact absurd hs (split_lines_ne_nil rest)
      | cons l ls =>
        rw [hs] at ih
        cases ls with
        | nil =>
          simp only [List.intercalate, List.intersperse, List.flatten] at ih ⊢
          simp at ih ⊢
          exact ih
        | cons l2 ls2 =>
          simp only [List.intercalate, List.intersperse, List.flatten] at ih ⊢
          simp at ih ⊢
          exact ih

theorem segments_spec (t : Text) : ∀ l ∈ segments t, l ≠ [] ∧ '\n' ∉ l := by
  intro l hl
  rw [segments, List.mem_filter] at hl
  exact ⟨by simpa using hl.2, split_lines_no_newline t l hl.1⟩

theorem segments_of_newlines (t : Text) (h : ∀ c ∈ t, c = '\n') : segments t = [] := by
  induction t with
  | nil => exact segments_nil
  | cons ch rest ih =>
    have hc : ch = '\n' := h ch (List.mem_cons_self _ _)
    subst hc
    rw [segments_cons_newline]
    exact ih (fun c hc => h c (List.mem_cons_of_mem _ hc))

theorem segments_ne_nil_iff (t : Text) : segments t ≠ [] ↔ ∃ c ∈ t, c ≠ '\n' := by
  constructor
  · intro h
    by_contra hc
    push_neg at hc
    exact h (segments_of_newlines t hc)
  · rintro ⟨c, hc, hne⟩
    induction t with
    | nil => simp at hc
    | cons ch rest ih =>
      by_cases h : ch = '\n'
      · subst h
        rw [segments_cons_newline]
        rcases List.mem_cons.mp hc with hc | hc
        · exact absurd hc hne
        · exact ih hc
      · rw [segments, split_lines_unfold]
        simp [h]

/-! ## Claims on `send_syslog` -/

/-- C10: for every buffered text and prefix, the lines of the records that
`send_syslog` forwards are exactly the non-empty maximal newline-free segments
of the text (the C string at `message`), in their order: the text is its
newline-free pieces joined by newlines, and the forwarded lines are the
non-empty pieces.  No record is empty or holds a newline, a text of newlines
only (or the empty text) gives no record, the first record carries the
prefix of the caller and every later one three blanks. -/
theorem C10_send_syslog_segments (message pfx : Text) (level : Nat) :
    (send_syslog message pfx level).map SyslogRecord.line
        = (split_lines (cstr message)).filter (fun l => decide (l ≠ []))
      ∧ List.intercalate ['\n'] (split_lines (cstr message)) = cstr message
      ∧ (∀ l ∈ split_lines (cstr message), '\n' ∉ l)
      ∧ (∀ r ∈ send_syslog message pfx level, r.line ≠ [] ∧ '\n' ∉ r.line)
      ∧ ((∀ c ∈ cstr message, c = '\n') → send_syslog message pfx level = [])
      ∧ (∀ r rs, send_syslog message pfx level = r :: rs →
          r.pfx = pfx ∧ ∀ r2 ∈ rs, r2.pfx = "   ".toList) := by
  refine ⟨?_, split_lines_join _, split_lines_no_newline _, ?_, ?_, ?_⟩
  · rw [send_syslog_eq, spec_records_line, segments]
  · intro r hr
    have hmem : r.line ∈ (send_syslog message pfx level).map SyslogRecord.line :=
      List.mem_map_of_mem _ hr
    rw [send_syslog_eq, spec_records_line] at hmem
    exact segments_spec _ _ hmem
  · intro h
    rw [send_syslog_eq, segments_of_newlines _ h, spec_records]
  · intro r rs h
    rw [send_syslog_eq] at h
    exact spec_records_tags _ _ _ _ _ h

/-- C10, at the text `"\n\nab\n\ncd\n"` with prefix `D:`: two records. -/
theorem C10_send_syslog_segments_witness :
    (send_syslog "\n\nab\n\ncd\n".toList "D:".toList LOG_DEBUG).map SyslogRecord.line
        = ["ab".toList, "cd".toList]
      ∧ (send_syslog "\n\n\n".toList "D:".toList LOG_DEBUG) = [] :=
  ⟨(C10_send_syslog_segments "\n\nab\n\ncd\n".toList "D:".toList LOG_DEBUG).1.trans (by decide),
   (C10_send_syslog_segments "\n\n\n".toList "D:".toList LOG_DEBUG).2.2.2.2.1 (by decide)⟩

set_option maxRecDepth 100000 in
/-- C2, as stated, fails: `multiline_message` holds 5 newlines, and
`send_syslog` forwards 4 records for it, not 6. -/
theorem C2_counterexample :
    multiline_message.count '\n' = 5
      ∧ (send_syslog multiline_message "D:".toList LOG_DEBUG).length = 4
      ∧ (send_syslog multiline_message "D:".toList LOG_DEBUG).map SyslogRecord.line
          = ["hello world".toList, "One two three four".toList,
             "int n = nvmecli_open_logger();".toList, "London does not wait for me".toList]
      ∧ (nvmecli_debug example_env example_logger example_sys
            { file := "logger.c".toList, line := 211, func := "main".toList }
            multiline_message []).map (fun r => r.2.syslog.length) = some 4 := by
  decide

/-- C2, amended: `send_syslog` forwards one record per non-empty line.  For a
text (the C string at `message`) with N newlines and no empty line it
forwards exactly N+1 records; for a text with an empty line it forwards fewer
than N+1.  The first record is tagged with the prefix of the caller and every
later one with three blanks. -/
theorem C2_records_per_nonempty_line (message pfx : Text) (level : Nat) :
    ([] ∉ split_lines (cstr message) →
        (send_syslog message pfx level).length = (cstr message).count '\n' + 1)
      ∧ ([] ∈ split_lines (cstr message) →
        (send_syslog message pfx level).length < (cstr message).count '\n' + 1)
      ∧ (∀ r rs, send_syslog message pfx level = r :: rs →
          r.pfx = pfx ∧ ∀ r2 ∈ rs, r2.pfx = "   ".toList) := by
  have hl : (split_lines (cstr message)).length = (cstr message).count '\n' + 1 :=
    split_lines_length _
  refine ⟨?_, ?_, ?_⟩
  · intro h
    rw [send_syslog_eq, spec_records_length, segments, ← hl]
    congr 1
    rw [List.filter_eq_self]
    intro l hl2
    have : l ≠ [] := fun h2 => h (h2 ▸ hl2)
    simpa using this
  · intro h
    rw [send_syslog_eq, spec_records_length, segments, ← hl]
    apply List.length_filter_lt_length_iff_exists.mpr
    exact ⟨[], h, by simp⟩
  · intro r rs h
    rw [send_syslog_eq] at h
    exact spec_records_tags _ _ _ _ _ h

/-- C2, amended, at the two-line text `"ab\ncd"`: two records, tagged `D:`
and three blanks. -/
theorem C2_records_per_nonempty_line_witness :
    (send_syslog "ab\ncd".toList "D:".toList LOG_DEBUG).length = 2
      ∧ (send_syslog "ab\n\ncd".toList "D:".toList LOG_DEBUG).length < 3 :=
  ⟨(C2_records_per_nonempty_line "ab\ncd".toList "D:".toList LOG_DEBUG).1 (by decide),
   (C2_records_per_nonempty_line "ab\n\ncd".toList "D:".toList LOG_DEBUG).2.1 (by decide)⟩

/-! ## Claims on `nvmecli_log` -/

/-- C4: `sysloglevel` maps FATAL to `LOG_CRIT`, ERROR to `LOG_ERR`, WARN to
`LOG_WARNING`, NOTICE to `LOG_NOTICE`, INFO to `LOG_INFO` and every other
level value to `LOG_DEBUG`; and on an open session every record that one
`nvmecli_log` call forwards carries this priority for the level of the call,
combined with `LOG_USER`. -/
theorem C4_sysloglevel_priority (env : Libc) (logger : nvmecli_logger) (sys : Sys)
    (loc : nvmecli_location) (pfx : Text) (os_error : Int) (format : Text) (args : List Arg)
    (fp : Memstream) (h : logger.memstream = some fp) :
    (loc.level = NVMECLI_LOGLEVEL_FATAL → sysloglevel loc = LOG_CRIT)
      ∧ (loc.level = NVMECLI_LOGLEVEL_ERROR → sysloglevel loc = LOG_ERR)
      ∧ (loc.level = NVMECLI_LOGLEVEL_WARN → sysloglevel loc = LOG_WARNING)
      ∧ (loc.level = NVMECLI_LOGLEVEL_NOTICE → sysloglevel loc = LOG_NOTICE)
      ∧ (loc.level = NVMECLI_LOGLEVEL_INFO → sysloglevel loc = LOG_INFO)
      ∧ (loc.level ≠ NVMECLI_LOGLEVEL_FATAL → loc.level ≠ NVMECLI_LOGLEVEL_ERROR →
          loc.level ≠ NVMECLI_LOGLEVEL_WARN → loc.level ≠ NVMECLI_LOGLEVEL_NOTICE →
          loc.level ≠ NVMECLI_LOGLEVEL_INFO → sysloglevel loc = LOG_DEBUG)
      ∧ ∃ logger1 sys1 records,
          nvmecli_log env logger sys loc pfx os_error format args = some (0, logger1, sys1)
          ∧ sys1.syslog = sys.syslog ++ records
          ∧ ∀ r ∈ records, r.priority = sysloglevel loc ||| LOG_USER := by
  refine ⟨?_, ?_, ?_, ?_, ?_, ?_, ?_⟩
  · intro hl
    simp [sysloglevel, hl]
  · intro hl
    simp [sysloglevel, hl, NVMECLI_LOGLEVEL_ERROR, NVMECLI_LOGLEVEL_FATAL]
  · intro hl
    simp [sysloglevel, hl, NVMECLI_LOGLEVEL_ERROR, NVMECLI_LOGLEVEL_FATAL, NVMECLI_LOGLEVEL_WARN]
  · intro hl
    simp [sysloglevel, hl, NVMECLI_LOGLEVEL_ERROR, NVMECLI_LOGLEVEL_FATAL, NVMECLI_LOGLEVEL_WARN,
      NVMECLI_LOGLEVEL_NOTICE]
  · intro hl
    simp [sysloglevel, hl, NVMECLI_LOGLEVEL_ERROR, NVMECLI_LOGLEVEL_FATAL, NVMECLI_LOGLEVEL_WARN,
      NVMECLI_LOGLEVEL_NOTICE, NVMECLI_LOGLEVEL_INFO]
  · intro h1 h2 h3 h4 h5
    simp [sysloglevel, h1, h2, h3, h4, h5]
  · rw [nvmecli_log_eq env logger sys loc pfx os_error format args fp h]
    refine ⟨_, _, _, rfl, rfl, ?_⟩
    intro r hr
    rw [send_syslog_eq] at hr
    exact spec_records_priority _ _ _ r hr

/-- C4, at an ERROR call with a two-line message on the example session:
both records carry `LOG_ERR | LOG_USER`, that is 11. -/
theorem C4_sysloglevel_priority_witness :
    example_logger.memstream = some { buf := [], pos := 0 }
      ∧ ∃ logger1 sys1 records,
          nvmecli_log example_env example_logger example_sys
            { fname := "logger.c".toList, line := 215, func := "main".toList,
              level := NVMECLI_LOGLEVEL_ERROR }
            "E:".toList 0 "first\nsecond".toList [] = some (0, logger1, sys1)
          ∧ sys1.syslog = example_sys.syslog ++ records
          ∧ ∀ r ∈ records, r.priority
              = sysloglevel { fname := "logger.c".toList, line := 215, func := "main".toList,
                              level := NVMECLI_LOGLEVEL_ERROR } ||| LOG_USER :=
  ⟨rfl, (C4_sysloglevel_priority example_env example_logger example_sys
      { fname := "logger.c".toList, line := 215, func := "main".toList,
        level := NVMECLI_LOGLEVEL_ERROR }
      "E:".toList 0 "first\nsecond".toList [] { buf := [], pos := 0 } rfl).2.2.2.2.2.2⟩

/-- C3: on an open session, one `nvmecli_log` call writes to the console as
follows.  At FATAL, ERROR or WARN the error stream receives the rendered
message, then `": "` and the OS description of `os_error` when `os_error` is
not zero, then one newline, and the standard output receives nothing.  At
NOTICE the standard output receives the rendered message and one newline and
the error stream nothing.  At every other level neither stream receives
anything. -/
theorem C3_console_output (env : Libc) (logger : nvmecli_logger) (sys : Sys)
    (loc : nvmecli_location) (pfx : Text) (os_error : Int) (format : Text) (args : List Arg)
    (fp : Memstream) (h : logger.memstream = some fp) :
    ∃ logger1 sys1,
      nvmecli_log env logger sys loc pfx os_error format args = some (0, logger1, sys1)
      ∧ (loc.level = NVMECLI_LOGLEVEL_FATAL ∨ loc.level = NVMECLI_LOGLEVEL_ERROR
            ∨ loc.level = NVMECLI_LOGLEVEL_WARN →
          sys1.stderr = sys.stderr ++ vformat format args
              ++ (if os_error ≠ 0 then ": ".toList ++ env.strerror os_error else []) ++ ['\n']
            ∧ sys1.stdout = sys.stdout)
      ∧ (loc.level = NVMECLI_LOGLEVEL_NOTICE →
          sys1.stdout = sys.stdout ++ vformat format args ++ ['\n']
            ∧ sys1.stderr = sys.stderr)
      ∧ (loc.level ≠ NVMECLI_LOGLEVEL_FATAL → loc.level ≠ NVMECLI_LOGLEVEL_ERROR →
          loc.level ≠ NVMECLI_LOGLEVEL_WARN → loc.level ≠ NVMECLI_LOGLEVEL_NOTICE →
          sys1.stderr = sys.stderr ∧ sys1.stdout = sys.stdout) := by
  rw [nvmecli_log_eq env logger sys loc pfx os_error format args fp h]
  refine ⟨_, _, rfl, ?_, ?_, ?_⟩
  · intro hl
    have hN : loc.level ≠ NVMECLI_LOGLEVEL_NOTICE := by
      rcases hl with hl | hl | hl <;> rw [hl] <;> decide
    simp [spec_console_err, spec_console_out, spec_os_description, hl, hN]
  · intro hl
    simp [spec_console_err, spec_console_out, hl, NVMECLI_LOGLEVEL_ERROR, NVMECLI_LOGLEVEL_FATAL,
      NVMECLI_LOGLEVEL_WARN, NVMECLI_LOGLEVEL_NOTICE]
  · intro h1 h2 h3 h4
    simp [spec_console_err, spec_console_out, h1, h2, h3, h4]

/-- C3, at the `nvmecli_perror("Perror Message")` of `main` with `errno` 114:
the error stream receives the message, the OS description and a newline. -/
theorem C3_console_output_witness :
    example_logger.memstream = some { buf := [], pos := 0 }
      ∧ ∃ logger1 sys1,
          nvmecli_log example_env example_logger example_sys
            { fname := "logger.c".toList, line := 217, func := "main".toList,
              level := NVMECLI_LOGLEVEL_ERROR }
            "E:".toList 114 "Perror Message".toList [] = some (0, logger1, sys1)
          ∧ sys1.stderr = "Perror Message: Operation already in progress\n".toList
          ∧ sys1.stdout = [] := by
  obtain ⟨logger1, sys1, h1, h2, _, _⟩ :=
    C3_console_output example_env example_logger example_sys
      { fname := "logger.c".toList, line := 217, func := "main".toList,
        level := NVMECLI_LOGLEVEL_ERROR }
      "E:".toList 114 "Perror Message".toList [] { buf := [], pos := 0 } rfl
  refine ⟨rfl, logger1, sys1, h1, ?_, ?_⟩
  · rw [(h2 (Or.inr (Or.inl rfl))).1]
    decide
  · rw [(h2 (Or.inr (Or.inl rfl))).2]
    rfl

theorem plain_append {a b : Text} (ha : ∀ c ∈ a, c ≠ '\n' ∧ c ≠ '\x00')
    (hb : ∀ c ∈ b, c ≠ '\n' ∧ c ≠ '\x00') : ∀ c ∈ a ++ b, c ≠ '\n' ∧ c ≠ '\x00' := by
  intro c hc
  rcases List.mem_append.mp hc with hc | hc
  · exact ha c hc
  · exact hb c hc

theorem plain_cons {x : Char} {b : Text} (hx : x ≠ '\n' ∧ x ≠ '\x00')
    (hb : ∀ c ∈ b, c ≠ '\n' ∧ c ≠ '\x00') : ∀ c ∈ x :: b, c ≠ '\n' ∧ c ≠ '\x00' := by
  intro c hc
  rcases List.mem_cons.mp hc with hc | hc
  · rw [hc]; exact hx
  · exact hb c hc

theorem spec_location_info_plain (loc : nvmecli_location)
    (hf : ∀ c ∈ loc.fname, c ≠ '\n' ∧ c ≠ '\x00') (hg : ∀ c ∈ loc.func, c ≠ '\n' ∧ c ≠ '\x00') :
    ∀ c ∈ spec_location_info loc, c ≠ '\n' ∧ c ≠ '\x00' :=
  plain_append (plain_append (plain_append (plain_append (plain_append (by decide) hf)
    (plain_cons (by decide) hg)) (by decide)) (fmt_d_plain _)) (by decide)

/-- One record for a text without newline and NUL. -/
theorem send_syslog_one_line (t pfx : Text) (level : Nat) (hne : t ≠ [])
    (h : ∀ c ∈ t, c ≠ '\n' ∧ c ≠ '\x00') :
    send_syslog t pfx level = [{ priority := level ||| LOG_USER, pfx := pfx, line := t }] := by
  rw [send_syslog_eq, cstr_of_plain t (fun c hc => (h c hc).2), segments,
    split_lines_of_no_newline t (fun c hc => (h c hc).1)]
  simp [hne, spec_records]

/-- C5: on an open, rewound session, the text that one `nvmecli_log` call
hands to `send_syslog` is: at WARN or ERROR the rendered message, then `": "`
and the OS description of `os_error` when `os_error` is not zero, then the
location metadata; at FATAL the same with the stack-trace section right after
the rendered message; at every other level the rendered message alone,
whatever `os_error` is.  With threshold INFO, a DEBUG statement writes nothing
and forwards nothing, and the WARN statement with format `"disk %s"` and
argument `"full"` writes `"disk full\n"` to the error stream and forwards one
record, tagged `W:`, whose line is `"disk full"` followed by the location
metadata (file and function names being one-line C strings). -/
theorem C5_dispatched_text (env : Libc) (logger : nvmecli_logger) (sys : Sys)
    (loc : nvmecli_location) (pfx : Text) (os_error : Int) (format : Text) (args : List Arg)
    (fp : Memstream) (site : Site) (h : logger.memstream = some fp) (hp : fp.pos = 0)
    (hfile : ∀ c ∈ site.file, c ≠ '\n' ∧ c ≠ '\x00')
    (hfunc : ∀ c ∈ site.func, c ≠ '\n' ∧ c ≠ '\x00') :
    (∃ logger1 sys1 text,
      nvmecli_log env logger sys loc pfx os_error format args = some (0, logger1, sys1)
      ∧ logger1.message = some text ∧ logger1.msglen = text.length
      ∧ sys1.syslog = sys.syslog ++ send_syslog text pfx (sysloglevel loc)
      ∧ (loc.level = NVMECLI_LOGLEVEL_WARN ∨ loc.level = NVMECLI_LOGLEVEL_ERROR →
          text = vformat format args
            ++ (if os_error ≠ 0 then ": ".toList ++ env.strerror os_error else [])
            ++ spec_location_info loc)
      ∧ (loc.level = NVMECLI_LOGLEVEL_FATAL →
          text = vformat format args ++ spec_stack_section env 2
            ++ (if os_error ≠ 0 then ": ".toList ++ env.strerror os_error else [])
            ++ spec_location_info loc)
      ∧ (loc.level ≠ NVMECLI_LOGLEVEL_WARN → loc.level ≠ NVMECLI_LOGLEVEL_ERROR →
          loc.level ≠ NVMECLI_LOGLEVEL_FATAL → text = vformat format args))
    ∧ (logger.logging_threshold = NVMECLI_LOGLEVEL_INFO →
        nvmecli_debug env logger sys site format args = some (logger, sys))
    ∧ (logger.logging_threshold = NVMECLI_LOGLEVEL_INFO →
        ∃ logger1 sys1,
          nvmecli_warn env logger sys site "disk %s".toList [Arg.s "full".toList]
            = some (logger1, sys1)
          ∧ sys1.stderr = sys.stderr ++ "disk full\n".toList
          ∧ sys1.stdout = sys.stdout
          ∧ sys1.syslog = sys.syslog ++
              [{ priority := LOG_WARNING ||| LOG_USER, pfx := "W:".toList,
                 line := "disk full".toList
                   ++ spec_location_info
                        { fname := site.file, line := site.line, func := site.func,
                          level := NVMECLI_LOGLEVEL_WARN } }]) := by
  refine ⟨?_, ?_, ?_⟩
  · rw [nvmecli_log_rewound env logger sys loc pfx os_error format args fp h hp]
    refine ⟨_, _, _, rfl, rfl, rfl, rfl, ?_, ?_, ?_⟩
    · intro hl
      have hF : loc.level ≠ NVMECLI_LOGLEVEL_FATAL := by
        rcases hl with hl | hl <;> rw [hl] <;> decide
      have hl2 : loc.level = NVMECLI_LOGLEVEL_ERROR ∨ loc.level = NVMECLI_LOGLEVEL_WARN :=
        hl.symm
      simp [spec_dispatch_text, spec_dispatch_tail, spec_os_description, hF, hl2]
    · intro hl
      simp [spec_dispatch_text, spec_dispatch_tail, spec_os_description, hl]
    · intro h1 h2 h3
      simp [spec_dispatch_text, spec_dispatch_tail, h1, h2, h3]
  · intro ht
    simp [nvmecli_debug, _nvmecli_msg, ht, NVMECLI_LOGLEVEL_DEBUG, NVMECLI_LOGLEVEL_INFO]
  · intro ht
    have hge : NVMECLI_LOGLEVEL_WARN ≥ logger.logging_threshold := by
      rw [ht]; decide
    have htext : spec_dispatch_text env
        { fname := site.file, line := site.line, func := site.func,
          level := NVMECLI_LOGLEVEL_WARN } 0 "disk %s".toList [Arg.s "full".toList]
        = "disk full".toList
            ++ spec_location_info
            { fname := site.file, line := site.line, func := site.func,
              level := NVMECLI_LOGLEVEL_WARN } := by
      simp [spec_dispatch_text, spec_dispatch_tail, spec_os_description, vformat, vformat_go,
        NVMECLI_LOGLEVEL_WARN, NVMECLI_LOGLEVEL_FATAL]
    have hplain : ∀ c ∈ "disk full".toList
        ++ spec_location_info
            { fname := site.file, line := site.line, func := site.func,
              level := NVMECLI_LOGLEVEL_WARN }, c ≠ '\n' ∧ c ≠ '\x00' := by
      exact plain_append (by decide) (spec_location_info_plain _ hfile hfunc)
    rw [nvmecli_warn, _nvmecli_msg, if_pos hge,
      nvmecli_log_rewound env logger sys _ _ _ _ _ fp h hp, htext,
      send_syslog_one_line _ _ _ (by simp) hplain]
    refine ⟨_, _, rfl, ?_, ?_, ?_⟩
    · simp [spec_console_err, spec_os_description, vformat, vformat_go]
    · simp [spec_console_out, NVMECLI_LOGLEVEL_WARN, NVMECLI_LOGLEVEL_NOTICE]
    · simp [sysloglevel, NVMECLI_LOGLEVEL_WARN, NVMECLI_LOGLEVEL_FATAL, NVMECLI_LOGLEVEL_ERROR]

set_option maxRecDepth 100000 in
/-- C5, on the session `stale_logger` (threshold INFO, stale bytes in the
buffer) at the call site `logger.c`, `main`, line 214. -/
theorem C5_dispatched_text_witness :
    (stale_logger.memstream = some { buf := "old message".toList, pos := 0 }
      ∧ stale_logger.logging_threshold = NVMECLI_LOGLEVEL_INFO)
      ∧ nvmecli_debug example_env stale_logger example_sys example_site
          "Debug Message".toList [] = some (stale_logger, example_sys)
      ∧ ∃ logger1 sys1,
          nvmecli_warn example_env stale_logger example_sys example_site
            "disk %s".toList [Arg.s "full".toList] = some (logger1, sys1)
          ∧ sys1.stderr = "disk full\n".toList
          ∧ sys1.syslog = [{ priority := 12, pfx := "W:".toList,
                             line := "disk full in logger.c:main():L214 ".toList }] := by
  have hw := C5_dispatched_text example_env stale_logger example_sys
    { fname := "logger.c".toList, line := 214, func := "main".toList,
      level := NVMECLI_LOGLEVEL_WARN }
    "W:".toList 0 "Debug Message".toList [] { buf := "old message".toList, pos := 0 }
    example_site rfl rfl (by decide) (by decide)
  obtain ⟨_, hd, hwarn⟩ := hw
  obtain ⟨logger1, sys1, h1, h2, _, h4⟩ := hwarn rfl
  refine ⟨⟨rfl, rfl⟩, hd rfl, logger1, sys1, h1, ?_, ?_⟩
  · rw [h2]; decide
  · rw [h4]; decide

/-- C1, as stated, fails: on the example session (threshold TRACE) the INFO
statement with the empty format passes the threshold, and no record is
forwarded. -/
theorem C1_counterexample :
    NVMECLI_LOGLEVEL_INFO ≥ example_logger.logging_threshold
      ∧ (_nvmecli_msg example_env example_logger example_sys example_site "I:".toList
            NVMECLI_LOGLEVEL_INFO 0 [] []).map (fun r => r.2.syslog) = some example_sys.syslog := by
  decide

/-- C1, amended: on an open, rewound session a statement at level L is
forwarded to the system log (at least one record) if and only if L is at
least the threshold and the text handed to `send_syslog` holds, before its
first NUL, a character other than a newline.  That text is the rendered
message followed by what the level adds to it.  Below the threshold the
statement changes nothing. -/
theorem C1_forwarded_iff (env : Libc) (g_logger : nvmecli_logger) (sys : Sys) (site : Site)
    (indicator : Text) (level : Int) (fmt : Int) (format : Text) (args : List Arg)
    (fp : Memstream) (h : g_logger.memstream = some fp) (hp : fp.pos = 0) :
    ∃ logger1 sys1 records text,
      _nvmecli_msg env g_logger sys site indicator level fmt format args = some (logger1, sys1)
      ∧ sys1.syslog = sys.syslog ++ records
      ∧ (level ≥ g_logger.logging_threshold →
          logger1.message = some text ∧ records = send_syslog text indicator
            (sysloglevel { fname := site.file, line := site.line, func := site.func,
                           level := level }))
      ∧ (¬ level ≥ g_logger.logging_threshold → logger1 = g_logger ∧ sys1 = sys)
      ∧ (records ≠ [] ↔
          level ≥ g_logger.logging_threshold ∧ ∃ c ∈ cstr text, c ≠ '\n')
      ∧ (level ≥ g_logger.logging_threshold →
          text = spec_dispatch_text env
            { fname := site.file, line := site.line, func := site.func, level := level }
            fmt format args) := by
  by_cases hge : level ≥ g_logger.logging_threshold
  · rw [_nvmecli_msg, if_pos hge, nvmecli_log_rewound env g_logger sys _ _ _ _ _ fp h hp]
    refine ⟨_, _, _, _, rfl, rfl, fun _ => ⟨rfl, rfl⟩, fun hn => absurd hge hn, ?_,
      fun _ => rfl⟩
    rw [send_syslog_eq]
    constructor
    · intro hr
      refine ⟨hge, (segments_ne_nil_iff _).mp ?_⟩
      intro hs
      rw [hs] at hr
      exact hr rfl
    · rintro ⟨_, hc⟩
      have hs := (segments_ne_nil_iff _).mpr hc
      cases hseg : segments (cstr (spec_dispatch_text env
          { fname := site.file, line := site.line, func := site.func, level := level }
          fmt format args)) with
      | nil => exact absurd hseg hs
      | cons l ls => simp [spec_records]
  · rw [_nvmecli_msg, if_neg hge]
    exact ⟨g_logger, sys, [], [], rfl, by simp, fun hn => absurd hn hge,
      fun _ => ⟨rfl, rfl⟩, by simp [hge], fun hn => absurd hn hge⟩

/-- C1, amended, on the example session: the statement `nvmecli_info("up")`
passes the threshold TRACE and forwards its text. -/
theorem C1_forwarded_iff_witness :
    (example_logger.memstream = some { buf := [], pos := 0 }
      ∧ ({ buf := [], pos := 0 } : Memstream).pos = 0)
      ∧ ∃ logger1 sys1 records text,
          _nvmecli_msg example_env example_logger example_sys example_site "I:".toList
            NVMECLI_LOGLEVEL_INFO 0 "up".toList [] = some (logger1, sys1)
          ∧ sys1.syslog = example_sys.syslog ++ records
          ∧ (NVMECLI_LOGLEVEL_INFO ≥ example_logger.logging_threshold →
              logger1.message = some text ∧ records = send_syslog text "I:".toList
                (sysloglevel { fname := example_site.file, line := example_site.line,
                               func := example_site.func, level := NVMECLI_LOGLEVEL_INFO }))
          ∧ (¬ NVMECLI_LOGLEVEL_INFO ≥ example_logger.logging_threshold →
              logger1 = example_logger ∧ sys1 = example_sys)
          ∧ (records ≠ [] ↔
              NVMECLI_LOGLEVEL_INFO ≥ example_logger.logging_threshold
                ∧ ∃ c ∈ cstr text, c ≠ '\n')
          ∧ (NVMECLI_LOGLEVEL_INFO ≥ example_logger.logging_threshold →
              text = spec_dispatch_text example_env
                { fname := example_site.file, line := example_site.line,
                  func := example_site.func, level := NVMECLI_LOGLEVEL_INFO }
                0 "up".toList []) :=
  ⟨⟨rfl, rfl⟩, C1_forwarded_iff example_env example_logger example_sys example_site "I:".toList
      NVMECLI_LOGLEVEL_INFO 0 "up".toList [] { buf := [], pos := 0 } rfl rfl⟩

/-- C6: after any `nvmecli_log` call on an open session the capture buffer is
rewound to empty: the file position of its stream is zero, no byte lies
between the start of the buffer and the position, and a flush would report
the size zero; this for every level, prefix, `os_error` and message.  The
records of the next call are then those of the same call on a session whose
buffer never held anything: no text of an earlier call is forwarded. -/
theorem C6_buffer_rewound (env : Libc) (logger : nvmecli_logger) (sys : Sys)
    (loc : nvmecli_location) (pfx : Text) (os_error : Int) (format : Text) (args : List Arg)
    (fp : Memstream) (h : logger.memstream = some fp) :
    ∃ logger1 sys1 fp1,
      nvmecli_log env logger sys loc pfx os_error format args = some (0, logger1, sys1)
      ∧ logger1.memstream = some fp1 ∧ fp1.pos = 0 ∧ fp1.contents = []
      ∧ (fflush logger1 fp1).msglen = 0
      ∧ ∀ (env2 : Libc) (loc2 : nvmecli_location) (pfx2 : Text) (os_error2 : Int)
          (format2 : Text) (args2 : List Arg),
          ∃ logger2 sys2 logger3 sys3,
            nvmecli_log env2 logger1 sys1 loc2 pfx2 os_error2 format2 args2
              = some (0, logger2, sys2)
            ∧ nvmecli_log env2 { logger1 with memstream := some { buf := [], pos := 0 } } sys1
                loc2 pfx2 os_error2 format2 args2 = some (0, logger3, sys3)
            ∧ sys2 = sys3 ∧ logger2.message = logger3.message
            ∧ logger2.msglen = logger3.msglen := by
  rw [nvmecli_log_eq env logger sys loc pfx os_error format args fp h]
  refine ⟨_, _, _, rfl, rfl, rfl, by simp [rewind, Memstream.contents],
    by simp [fflush, rewind], ?_⟩
  intro env2 loc2 pfx2 os_error2 format2 args2
  rw [nvmecli_log_rewound env2 _ _ loc2 pfx2 os_error2 format2 args2 _ rfl rfl,
    nvmecli_log_rewound env2 _ _ loc2 pfx2 os_error2 format2 args2 { buf := [], pos := 0 }
      rfl rfl]
  exact ⟨_, _, _, _, rfl, rfl, rfl, rfl, rfl⟩

/-- C6, on the session `stale_logger`, whose buffer holds the bytes of an
earlier message: after a WARN call the stream is rewound. -/
theorem C6_buffer_rewound_witness :
    stale_logger.memstream = some { buf := "old message".toList, pos := 0 }
      ∧ ∃ logger1 sys1 fp1,
          nvmecli_log example_env stale_logger example_sys
            { fname := "logger.c".toList, line := 214, func := "main".toList,
              level := NVMECLI_LOGLEVEL_WARN }
            "W:".toList 0 "Warn".toList [] = some (0, logger1, sys1)
          ∧ logger1.memstream = some fp1 ∧ fp1.pos = 0 ∧ fp1.contents = [] := by
  obtain ⟨logger1, sys1, fp1, h1, h2, h3, h4, _⟩ :=
    C6_buffer_rewound example_env stale_logger example_sys
      { fname := "logger.c".toList, line := 214, func := "main".toList,
        level := NVMECLI_LOGLEVEL_WARN }
      "W:".toList 0 "Warn".toList [] { buf := "old message".toList, pos := 0 } rfl
  exact ⟨rfl, logger1, sys1, fp1, h1, h2, h3, h4⟩

/-! ## The stack-trace section -/

/-- An INFO statement whose format is a one-line text without conversion, on
an open, rewound session with a threshold of at most INFO. -/
theorem nvmecli_info_marker (env : Libc) (logger : nvmecli_logger) (sys : Sys) (site : Site)
    (t : Text) (fp : Memstream) (h : logger.memstream = some fp) (hp : fp.pos = 0)
    (ht : logger.logging_threshold ≤ NVMECLI_LOGLEVEL_INFO) (hv : vformat t [] = t)
    (hne : t ≠ []) (hplain : ∀ c ∈ t, c ≠ '\n' ∧ c ≠ '\x00') :
    nvmecli_info env logger sys site t []
      = some ({ message := some t, msglen := t.length,
                memstream := some (rewind (fp.write t)),
                logging_threshold := logger.logging_threshold },
              { sys with syslog := sys.syslog
                  ++ [{ priority := LOG_INFO ||| LOG_USER, pfx := "I:".toList, line := t }] }) := by
  have htext : spec_dispatch_text env
      { fname := site.file, line := site.line, func := site.func,
        level := NVMECLI_LOGLEVEL_INFO } 0 t [] = t := by
    simp [spec_dispatch_text, spec_dispatch_tail, hv, NVMECLI_LOGLEVEL_INFO, NVMECLI_LOGLEVEL_FATAL,
      NVMECLI_LOGLEVEL_ERROR, NVMECLI_LOGLEVEL_WARN]
  rw [nvmecli_info, _nvmecli_msg, if_pos ht,
    nvmecli_log_rewound env logger sys _ _ _ _ _ fp h hp, htext,
    send_syslog_one_line _ _ _ hne hplain]
  simp [spec_console_err, spec_console_out, sysloglevel, NVMECLI_LOGLEVEL_INFO, NVMECLI_LOGLEVEL_FATAL,
    NVMECLI_LOGLEVEL_ERROR, NVMECLI_LOGLEVEL_WARN, NVMECLI_LOGLEVEL_NOTICE]

/-- C8: when `open_memstream` succeeds, `nvmecli_open_logger` followed at once
by `nvmecli_close_logger` forwards exactly two records, in this order: the
marker `=== Starting NVMe CLI Logger ===` and the marker
`=== Closing NVMe CLI Logger ===`, both tagged `I:` and at the priority
`LOG_INFO`.  Open returns 0 and leaves the threshold at TRACE; close returns 0
and leaves no writer, no buffer, length 0 and threshold 0. -/
theorem C8_open_then_close (env : Libc) (g_logger : nvmecli_logger) (sys : Sys)
    (h : env.open_memstream_errno = none) :
    ∃ logger1 sys1 logger2 sys2,
      nvmecli_open_logger env g_logger sys = some (0, logger1, sys1)
      ∧ logger1.logging_threshold = NVMECLI_LOGLEVEL_TRACE
      ∧ sys1.syslog = sys.syslog
          ++ [{ priority := LOG_INFO ||| LOG_USER, pfx := "I:".toList,
                line := "=== Starting NVMe CLI Logger ===".toList }]
      ∧ nvmecli_close_logger env logger1 sys1 = some (0, logger2, sys2)
      ∧ sys2.syslog = sys.syslog
          ++ [{ priority := LOG_INFO ||| LOG_USER, pfx := "I:".toList,
                line := "=== Starting NVMe CLI Logger ===".toList },
              { priority := LOG_INFO ||| LOG_USER, pfx := "I:".toList,
                line := "=== Closing NVMe CLI Logger ===".toList }]
      ∧ logger2 = { message := none, msglen := 0, memstream := none, logging_threshold := 0 }
      ∧ sys2.stderr = sys.stderr ∧ sys2.stdout = sys.stdout := by
  have hopen := nvmecli_info_marker env
    { g_logger with memstream := some { buf := [], pos := 0 },
                    logging_threshold := NVMECLI_LOGLEVEL_TRACE }
    { sys with ident := some "nvme-cli".toList }
    { file := "logger.c".toList, line := 105, func := "nvmecli_open_logger".toList }
    "=== Starting NVMe CLI Logger ===".toList { buf := [], pos := 0 } rfl rfl
    (show NVMECLI_LOGLEVEL_TRACE ≤ NVMECLI_LOGLEVEL_INFO by decide)
    (by decide) (by decide) (by decide)
  have hclose := fun (lg : nvmecli_logger) (s : Sys) (fp : Memstream)
      (h1 : lg.memstream = some fp) (h2 : fp.pos = 0)
      (h3 : lg.logging_threshold ≤ NVMECLI_LOGLEVEL_INFO) =>
    nvmecli_info_marker env lg s
      { file := "logger.c".toList, line := 112, func := "nvmecli_close_logger".toList }
      "=== Closing NVMe CLI Logger ===".toList fp h1 h2 h3 (by decide) (by decide) (by decide)
  have ho : nvmecli_open_logger env g_logger sys
      = some (0,
          { message := some "=== Starting NVMe CLI Logger ===".toList,
            msglen := "=== Starting NVMe CLI Logger ===".toList.length,
            memstream := some (rewind (Memstream.write { buf := [], pos := 0 }
              "=== Starting NVMe CLI Logger ===".toList)),
            logging_threshold := NVMECLI_LOGLEVEL_TRACE },
          { stderr := sys.stderr, stdout := sys.stdout,
            syslog := sys.syslog
              ++ [{ priority := LOG_INFO ||| LOG_USER, pfx := "I:".toList,
                    line := "=== Starting NVMe CLI Logger ===".toList }],
            ident := some "nvme-cli".toList }) := by
    rw [nvmecli_open_logger, h]
    simp only
    rw [hopen]
  refine ⟨_, _, { message := none, msglen := 0, memstream := none, logging_threshold := 0 },
    { stderr := sys.stderr, stdout := sys.stdout,
      syslog := sys.syslog
        ++ [{ priority := LOG_INFO ||| LOG_USER, pfx := "I:".toList,
              line := "=== Starting NVMe CLI Logger ===".toList },
            { priority := LOG_INFO ||| LOG_USER, pfx := "I:".toList,
              line := "=== Closing NVMe CLI Logger ===".toList }],
      ident := none }, ho, rfl, rfl, ?_, rfl, rfl, rfl, rfl⟩
  rw [nvmecli_close_logger, hclose _ _ _ rfl rfl
    (show NVMECLI_LOGLEVEL_TRACE ≤ NVMECLI_LOGLEVEL_INFO by decide)]
  simp [fflush]

/-- C8, from the initial value of `g_logger` in the example environment. -/
theorem C8_open_then_close_witness :
    example_env.open_memstream_errno = none
      ∧ ∃ logger1 sys1 logger2 sys2,
          nvmecli_open_logger example_env g_logger_init example_sys = some (0, logger1, sys1)
          ∧ logger1.logging_threshold = NVMECLI_LOGLEVEL_TRACE
          ∧ sys1.syslog = example_sys.syslog
              ++ [{ priority := LOG_INFO ||| LOG_USER, pfx := "I:".toList,
                    line := "=== Starting NVMe CLI Logger ===".toList }]
          ∧ nvmecli_close_logger example_env logger1 sys1 = some (0, logger2, sys2)
          ∧ sys2.syslog = example_sys.syslog
              ++ [{ priority := LOG_INFO ||| LOG_USER, pfx := "I:".toList,
                    line := "=== Starting NVMe CLI Logger ===".toList },
                  { priority := LOG_INFO ||| LOG_USER, pfx := "I:".toList,
                    line := "=== Closing NVMe CLI Logger ===".toList }]
          ∧ logger2 = { message := none, msglen := 0, memstream := none,
                        logging_threshold := 0 }
          ∧ sys2.stderr = example_sys.stderr ∧ sys2.stdout = example_sys.stdout :=
  ⟨rfl, C8_open_then_close example_env g_logger_init example_sys rfl⟩

/-- C9: the code at the failing input.  On a session that is already closed
(no writer, no buffer, length 0, threshold 0) the closing marker of
`nvmecli_close_logger` passes the threshold check, and `nvmecli_log` writes
through the `NULL` stream: the call has no defined behaviour, it does not
return 0 with the session unchanged.  This is the state a first close
leaves, so a second close directly after a first does the same. -/
theorem C9_close_on_closed_session (env : Libc) (sys : Sys) (logger : nvmecli_logger)
    (fp : Memstream) (h : logger.memstream = some fp) (hp : fp.pos = 0)
    (ht : logger.logging_threshold ≤ NVMECLI_LOGLEVEL_INFO) :
    NVMECLI_LOGLEVEL_INFO ≥ g_logger_init.logging_threshold
      ∧ nvmecli_close_logger env g_logger_init sys = none
      ∧ ∃ sys1, nvmecli_close_logger env logger sys = some (0, g_logger_init, sys1)
          ∧ nvmecli_close_logger env g_logger_init sys1 = none := by
  have hnone : ∀ s : Sys, nvmecli_close_logger env g_logger_init s = none := by
    intro s
    simp [nvmecli_close_logger, nvmecli_info, _nvmecli_msg, nvmecli_log, g_logger_init,
      NVMECLI_LOGLEVEL_INFO]
  refine ⟨by decide, hnone sys, ?_⟩
  have hclose := nvmecli_info_marker env logger sys
    { file := "logger.c".toList, line := 112, func := "nvmecli_close_logger".toList }
    "=== Closing NVMe CLI Logger ===".toList fp h hp ht (by decide) (by decide) (by decide)
  refine ⟨{ sys with
      syslog := sys.syslog ++ [{ priority := LOG_INFO ||| LOG_USER, pfx := "I:".toList,
                                 line := "=== Closing NVMe CLI Logger ===".toList }],
      ident := none }, ?_, hnone _⟩
  rw [nvmecli_close_logger, hclose]
  simp [fflush, g_logger_init]

/-- C9, on the example session: the first close returns 0 and leaves the
closed state, the second one writes through the `NULL` stream. -/
theorem C9_close_on_closed_session_witness :
    (example_logger.memstream = some { buf := [], pos := 0 }
      ∧ ({ buf := [], pos := 0 } : Memstream).pos = 0
      ∧ example_logger.logging_threshold ≤ NVMECLI_LOGLEVEL_INFO)
      ∧ NVMECLI_LOGLEVEL_INFO ≥ g_logger_init.logging_threshold
      ∧ nvmecli_close_logger example_env g_logger_init example_sys = none
      ∧ ∃ sys1, nvmecli_close_logger example_env example_logger example_sys
            = some (0, g_logger_init, sys1)
          ∧ nvmecli_close_logger example_env g_logger_init sys1 = none :=
  ⟨⟨rfl, rfl, by decide⟩,
   C9_close_on_closed_session example_env example_sys example_logger { buf := [], pos := 0 }
     rfl rfl (by decide)⟩

/-! ## The run of `main` -/

set_option maxRecDepth 1000000 in
/-- The run of `main` in the example environment: it exits with 0 and hands
these eighteen records to `syslog`; the six lines of `multiline_message` give
four of them. -/
theorem main_run :
    (main example_env example_sys).map
        (fun r => (r.1, r.2.1, r.2.2.syslog.map SyslogRecord.text, r.2.2.stderr, r.2.2.stdout))
      = some (0, g_logger_init,
          ["I: === Starting NVMe CLI Logger ===".toList,
           "T: Trace Message and very long message".toList,
           "D: Debug Message".toList,
           "D: hello world".toList,
           "    One two three four".toList,
           "    int n = nvmecli_open_logger();".toList,
           "    London does not wait for me".toList,
           "I: Info Message".toList,
           "N: Notice Message".toList,
           "W: Warn Message in logger.c:main():L214 ".toList,
           "E: Error Message in logger.c:main():L215 ".toList,
           "E: Perror Message: Operation already in progress in logger.c:main():L217 ".toList,
           "F: Fatal Message".toList,
           "    === nvme-cli stack trace ===".toList,
           "    (2) logger(send_fatal+0x4c)".toList,
           "    (3) logger(main+0x1b0)".toList,
           "     in logger.c:send_fatal():L198 ".toList,
           "I: === Closing NVMe CLI Logger ===".toList],
          ("Warn Message\nError Message\nPerror Message: Operation already in progress\n"
            ++ "Fatal Message\n").toList,
          "Notice Message\n".toList) := by
  decide

end NvmeCli
